import Mathlib

/-!
# MXChip AZ3166 Azure IoT client (`app/nx_client.c`)

A shallow embedding of the three cloud callbacks (`direct_method_cb`,
`device_twin_desired_property_cb`, `device_twin_property_cb`) and of the
entry function `azure_iot_nx_client_entry` with its telemetry loop.

Conventions of the embedding:

* a C pointer to bytes (`UCHAR*`, `CHAR*`) is a function from the byte offset
  to the byte stored there; lengths travel separately, as in the C signatures;
* the file-scope variables (`telemetry_interval`, `azure_iot_flags`) and the
  LED pin form the record `Globals`, threaded explicitly;
* every call into a collaborator outside the file (HAL, ThreadX, the IoT SDK,
  the sensor drivers, `printf`) is recorded, in program order, as a `Call`;
* status codes returned by collaborators are inputs of the embedded function.
-/

namespace NxClient

/-! ## C types and constants -/

/-- ThreadX/NetX `UINT`. -/
abbrev UINT := Nat

/-- ThreadX `ULONG` (32 bits on the Cortex-M4 target). -/
abbrev ULONG := Nat

/-- A pointer to bytes: the byte found at each offset from the pointer. -/
abbrev BytePtr := Nat → Nat

/-- A C string literal (ASCII): its characters, then the terminating NUL.
Offsets past the terminator also read 0; `strncmp` never gets there. -/
def c_str (s : String) : BytePtr :=
  fun i => (s.toList.map Char.toNat).getD i 0

def IOT_MODEL_ID : String := "dtmi:com:example:azurertos:gsg;1"
def TELEMETRY_INTERVAL_PROPERTY : String := "telemetryInterval"
def LED_STATE_PROPERTY : String := "ledState"
def SET_LED_STATE_COMMAND : String := "setLedState"

def TELEMETRY_INTERVAL_EVENT : ULONG := 1

def NX_SUCCESS : UINT := 0
def NX_AZURE_IOT_SUCCESS : UINT := 0

/-- Conversion of a C integer value to the 32-bit unsigned `ULONG`. -/
def to_ULONG (x : Int) : ULONG := (x % 4294967296).toNat

/-- Values of a C `float`; the program only moves them around. -/
structure C_float where
  bits : Nat
deriving DecidableEq, Repr

/-- HAL pin level. -/
inductive GPIO_PinState
  | GPIO_PIN_RESET
  | GPIO_PIN_SET
deriving DecidableEq, Repr

/-- ThreadX event-flag options used by the file. -/
inductive TX_OPTION
  | TX_OR
  | TX_OR_CLEAR
deriving DecidableEq, Repr

/-- The sensor drivers called by the telemetry loop. -/
inductive Sensor
  | lps22hb
  | hts221
  | lsm6dsl
  | lis2mdl
deriving DecidableEq, Repr

/-- The callbacks the entry function registers with the client. -/
inductive Callback
  | direct_method_cb
  | device_twin_desired_property_cb
  | device_twin_property_cb
deriving DecidableEq, Repr

/-- `strncmp` from position `i` on, with `n` characters still to compare. -/
def strncmp_from (s1 s2 : BytePtr) : Nat → Nat → Int
  | _, 0 => 0
  | i, n + 1 =>
    if s1 i ≠ s2 i then (s1 i : Int) - (s2 i : Int)
    else if s1 i = 0 then 0
    else strncmp_from s1 s2 (i + 1) n

/-- C `strncmp`: compares at most `n` characters, stopping at the first
difference or after a NUL found in both strings. -/
def strncmp (s1 s2 : BytePtr) (n : Nat) : Int :=
  strncmp_from s1 s2 0 n

/-- C `strlen` of a string literal. -/
def strlen (s : String) : Nat := s.length

/-! ## State and recorded calls -/

/-- The file-scope variables of `nx_client.c` together with the LED pin. -/
structure Globals where
  /-- `static int32_t telemetry_interval` (seconds). -/
  telemetry_interval : Int
  /-- Current flags held by the group `azure_iot_flags`. -/
  azure_iot_flags : ULONG
  /-- Level of pin 13 of port C, which drives the LED. -/
  led_pin : GPIO_PinState
deriving DecidableEq, Repr

/-- Calls the file makes into its collaborators, with the arguments that
matter (context pointers are left out). -/
inductive Call
  | printf (format : String) (args : List Nat)
  | HAL_GPIO_WritePin (port : String) (pin : Nat) (state : GPIO_PinState)
  | azure_iot_nx_client_publish_bool_property (property : String) (value : Bool)
  | nx_azure_iot_hub_client_direct_method_message_response
      (http_status : UINT) (payload : String) (payload_length : Nat)
  | tx_event_flags_set (flags_to_set : ULONG) (option : TX_OPTION)
  | azure_nx_client_respond_int_writeable_property
      (property : String) (value : Int) (http_status : Nat) (version : UINT)
  | tx_event_flags_create (name : String)
  | azure_iot_nx_client_dps_create (model_id : String)
  | azure_iot_nx_client_create (model_id : String)
  | azure_iot_nx_client_register_direct_method (cb : Callback)
  | azure_iot_nx_client_register_device_twin_desired_prop (cb : Callback)
  | azure_iot_nx_client_register_device_twin_prop (cb : Callback)
  | azure_iot_nx_client_connect
  | nx_azure_iot_hub_client_device_twin_properties_request
  | screen_print (text : String)
  | tx_event_flags_get (requested_flags : ULONG) (option : TX_OPTION) (wait_option : ULONG)
  | sensor_data_read (sensor : Sensor)
  | azure_iot_nx_client_publish_float_telemetry (key : String) (value : C_float)
deriving DecidableEq, Repr

/-! ## Collaborators whose effect on the state matters -/

/-- Modelled from the spec: the JSON reader of the IoT SDK is not part of the
source file.  A reader positioned at a value is represented by what
`nx_azure_iot_json_reader_token_int32_get` does with it: the status it
returns and, when that status is success, the 32-bit integer it parsed. -/
structure NX_AZURE_IOT_JSON_READER where
  status : UINT
  value : Int
deriving DecidableEq, Repr

/-- Modelled from the spec: `nx_azure_iot_json_reader_token_int32_get` (IoT
SDK, not in the source file).  On success the parsed integer is stored through
the out pointer; on failure the pointee is left as it was. -/
def nx_azure_iot_json_reader_token_int32_get
    (reader : NX_AZURE_IOT_JSON_READER) (out : Int) : UINT × Int :=
  if reader.status = NX_AZURE_IOT_SUCCESS then (reader.status, reader.value)
  else (reader.status, out)

/-- Modelled from the spec: ThreadX `tx_event_flags_set` with `TX_OR` (not in
the source file) ORs the given flags into the group. -/
def tx_event_flags_set (g : Globals) (flags_to_set : ULONG) : Globals :=
  { g with azure_iot_flags := g.azure_iot_flags ||| flags_to_set }

/-- Modelled from the spec: ThreadX `tx_event_flags_get` with `TX_OR_CLEAR`
(not in the source file) leaves the requested flags cleared when it returns. -/
def tx_event_flags_get_clear (g : Globals) (requested_flags : ULONG) : Globals :=
  { g with azure_iot_flags := g.azure_iot_flags &&& (4294967295 ^^^ requested_flags) }

/-! ## The callbacks -/

def set_led_state (level : Bool) (g : Globals) : Globals × List Call :=
  if level then
    ({ g with led_pin := GPIO_PinState.GPIO_PIN_SET },
     [Call.printf "LED is turned ON\r\n" [],
      Call.HAL_GPIO_WritePin "GPIOC" 13 GPIO_PinState.GPIO_PIN_SET])
  else
    ({ g with led_pin := GPIO_PinState.GPIO_PIN_RESET },
     [Call.printf "LED is turned OFF\r\n" [],
      Call.HAL_GPIO_WritePin "GPIOC" 13 GPIO_PinState.GPIO_PIN_RESET])

/-- `direct_method_cb`.  `response_status` is what the SDK returns from
`nx_azure_iot_hub_client_direct_method_message_response`. -/
def direct_method_cb (response_status : UINT)
    (method : BytePtr) (method_length : Nat)
    (payload : BytePtr) (payload_length : Nat)
    (g : Globals) : Globals × List Call :=
  let http_status0 : UINT := 501
  let http_response : String := "\x7b\x7d"
  let (g1, calls1, http_status) :=
    if strncmp method (c_str SET_LED_STATE_COMMAND) method_length = 0 then
      let arg : Bool := decide (strncmp payload (c_str "true") payload_length = 0)
      let (g1, led_calls) := set_led_state arg g
      (g1,
       led_calls ++ [Call.azure_iot_nx_client_publish_bool_property LED_STATE_PROPERTY arg],
       (200 : UINT))
    else (g, [], http_status0)
  let respond :=
    Call.nx_azure_iot_hub_client_direct_method_message_response
      http_status http_response (strlen http_response)
  if response_status ≠ 0 then
    (g1, calls1 ++ [respond,
      Call.printf "Direct method response failed! (0x%08x)\r\n" [response_status]])
  else
    (g1, calls1 ++ [respond])

def device_twin_desired_property_cb
    (property_name : BytePtr) (property_name_len : Nat)
    (property_value_reader : NX_AZURE_IOT_JSON_READER) (version : UINT)
    (g : Globals) : Globals × List Call :=
  if strncmp property_name (c_str TELEMETRY_INTERVAL_PROPERTY) property_name_len = 0 then
    let (status, ti) :=
      nx_azure_iot_json_reader_token_int32_get property_value_reader g.telemetry_interval
    let g1 := { g with telemetry_interval := ti }
    if status = NX_AZURE_IOT_SUCCESS then
      let g2 := tx_event_flags_set g1 TELEMETRY_INTERVAL_EVENT
      (g2,
       [Call.tx_event_flags_set TELEMETRY_INTERVAL_EVENT TX_OPTION.TX_OR,
        Call.azure_nx_client_respond_int_writeable_property
          TELEMETRY_INTERVAL_PROPERTY g2.telemetry_interval 200 version])
    else (g1, [])
  else (g, [])

def device_twin_property_cb
    (property_name : BytePtr) (property_name_len : Nat)
    (property_value_reader : NX_AZURE_IOT_JSON_READER) (version : UINT)
    (g : Globals) : Globals × List Call :=
  let (g1, calls1) :=
    if strncmp property_name (c_str TELEMETRY_INTERVAL_PROPERTY) property_name_len = 0 then
      let (status, ti) :=
        nx_azure_iot_json_reader_token_int32_get property_value_reader g.telemetry_interval
      let g1 := { g with telemetry_interval := ti }
      if status = NX_AZURE_IOT_SUCCESS then
        (tx_event_flags_set g1 TELEMETRY_INTERVAL_EVENT,
         [Call.tx_event_flags_set TELEMETRY_INTERVAL_EVENT TX_OPTION.TX_OR])
      else (g1, [])
    else (g, [])
  (g1, calls1 ++ [Call.azure_nx_client_respond_int_writeable_property
      TELEMETRY_INTERVAL_PROPERTY g1.telemetry_interval 200 version])

/-! ## The entry function and its telemetry loop -/

/-- Result of `lps22hb_data_read` (the fields the file uses). -/
structure lps22hb_t where
  pressure_hPa : C_float
  temperature_degC : C_float

/-- Result of `hts221_data_read` (the field the file uses). -/
structure hts221_data_t where
  humidity_perc : C_float

/-- Result of `lsm6dsl_data_read` (the field the file uses). -/
structure lsm6dsl_data_t where
  acceleration_mg : Fin 3 → C_float

/-- Result of `lis2mdl_data_read` (the field the file uses). -/
structure lis2mdl_data_t where
  magnetic_mG : Fin 3 → C_float

/-- Everything the entry function receives from outside: build configuration,
the status returned by each setup call, what each sensor driver returns at the
`k`-th pass through the loop, and what the callbacks that ran while the loop
was blocked in its `k`-th wait did to the file-scope variables. -/
structure Env where
  ENABLE_DPS : Bool
  NX_IP_PERIODIC_RATE : Nat
  tx_event_flags_create_status : UINT
  client_create_status : UINT
  connect_status : UINT
  twin_request_status : UINT
  lps22hb_data_read : Nat → lps22hb_t
  hts221_data_read : Nat → hts221_data_t
  lsm6dsl_data_read : Nat → lsm6dsl_data_t
  lis2mdl_data_read : Nat → lis2mdl_data_t
  /-- Status returned by the telemetry publish of pass `k`; the loop drops it. -/
  publish_telemetry_status : Nat → UINT
  callbacks_during_wait : Nat → Globals → Globals

/-- The `switch (telemetry_state)` of the loop at pass `k`: the calls made. -/
def telemetry_switch (env : Env) (k : Nat) (telemetry_state : Int) : List Call :=
  match telemetry_state with
  | 0 =>
    let lps22hb_data := env.lps22hb_data_read k
    [Call.sensor_data_read Sensor.lps22hb,
     Call.azure_iot_nx_client_publish_float_telemetry "temperature"
       lps22hb_data.temperature_degC]
  | 1 =>
    let lps22hb_data := env.lps22hb_data_read k
    [Call.sensor_data_read Sensor.lps22hb,
     Call.azure_iot_nx_client_publish_float_telemetry "pressure"
       lps22hb_data.pressure_hPa]
  | 2 =>
    let hts221_data := env.hts221_data_read k
    [Call.sensor_data_read Sensor.hts221,
     Call.azure_iot_nx_client_publish_float_telemetry "humidity"
       hts221_data.humidity_perc]
  | 3 =>
    let lsm6dsl_data := env.lsm6dsl_data_read k
    [Call.sensor_data_read Sensor.lsm6dsl,
     Call.azure_iot_nx_client_publish_float_telemetry "acceleration"
       (lsm6dsl_data.acceleration_mg 0)]
  | 4 =>
    let lis2mdl_data := env.lis2mdl_data_read k
    [Call.sensor_data_read Sensor.lis2mdl,
     Call.azure_iot_nx_client_publish_float_telemetry "magnetic"
       (lis2mdl_data.magnetic_mG 0)]
  | _ => []

/-- The timeout argument of the loop's wait:
`telemetry_interval * NX_IP_PERIODIC_RATE` received as `ULONG wait_option`.
The rate macro comes from the network stack and is a field of `Env`.  The
callee sees the product reduced modulo 2^32: that is what the conversion of
the `int32_t` operand or of the product to the 32-bit unsigned type yields. -/
def wait_option (env : Env) (g : Globals) : ULONG :=
  to_ULONG (g.telemetry_interval * (env.NX_IP_PERIODIC_RATE : Int))

/-- One pass through the body of `while (true)`, the `k`-th one: the wait,
the switch, the advance of `telemetry_state`. -/
def loop_body (env : Env) (k : Nat) (g : Globals) (telemetry_state : Int) :
    (Globals × Int) × List Call :=
  let wait := Call.tx_event_flags_get TELEMETRY_INTERVAL_EVENT TX_OPTION.TX_OR_CLEAR
    (wait_option env g)
  let g1 := tx_event_flags_get_clear (env.callbacks_during_wait k g) TELEMETRY_INTERVAL_EVENT
  let calls := telemetry_switch env k telemetry_state
  ((g1, Int.tmod (telemetry_state + 1) 5), wait :: calls)

/-- The loop `while (true)`, cut off after `fuel` passes: the state reached
and the calls of each pass, starting at pass number `k`. -/
def main_loop (env : Env) : Nat → Nat → Globals → Int → (Globals × Int) × List (List Call)
  | 0, _, g, telemetry_state => ((g, telemetry_state), [])
  | fuel + 1, k, g, telemetry_state =>
    let (st, calls) := loop_body env k g telemetry_state
    let (fin, rest) := main_loop env fuel (k + 1) st.1 st.2
    (fin, calls :: rest)

/-- Outcome of running the entry function. -/
structure EntryResult where
  /-- The status returned, or `none` while the function is still in its loop. -/
  returned : Option UINT
  globals : Globals
  /-- Value of the local `telemetry_state`. -/
  telemetry_state : Int
  /-- Calls made before the loop. -/
  setup_calls : List Call
  /-- Calls made by each pass through the loop. -/
  loop_calls : List (List Call)

/-- The client creation selected by `#ifdef ENABLE_DPS`. -/
def client_create_call (env : Env) : Call :=
  if env.ENABLE_DPS then Call.azure_iot_nx_client_dps_create IOT_MODEL_ID
  else Call.azure_iot_nx_client_create IOT_MODEL_ID

/-- `azure_iot_nx_client_entry`, its loop cut off after `fuel` passes. -/
def azure_iot_nx_client_entry (env : Env) (g : Globals) (fuel : Nat) : EntryResult :=
  let telemetry_state : Int := 0
  let c1 := [Call.tx_event_flags_create "Azure IoT flags"]
  if env.tx_event_flags_create_status ≠ 0 then
    ⟨some env.tx_event_flags_create_status, g, telemetry_state,
     c1 ++ [Call.printf "FAIL: Unable to create nx_client event flags (0x%04x)\r\n"
       [env.tx_event_flags_create_status]], []⟩
  else
  -- a group that was just created holds no flag
  let g := { g with azure_iot_flags := 0 }
  let c2 := c1 ++ [client_create_call env]
  if env.client_create_status ≠ NX_SUCCESS then
    ⟨some env.client_create_status, g, telemetry_state,
     c2 ++ [Call.printf "ERROR: failed to create iot client 0x%04x\r\n"
       [env.client_create_status]], []⟩
  else
  let c3 := c2 ++
    [Call.azure_iot_nx_client_register_direct_method Callback.direct_method_cb,
     Call.azure_iot_nx_client_register_device_twin_desired_prop
       Callback.device_twin_desired_property_cb,
     Call.azure_iot_nx_client_register_device_twin_prop Callback.device_twin_property_cb,
     Call.azure_iot_nx_client_connect]
  if env.connect_status ≠ 0 then
    ⟨some env.connect_status, g, telemetry_state,
     c3 ++ [Call.printf "ERROR: failed to connect nx client (0x%08x)\r\n"
       [env.connect_status]], []⟩
  else
  let c4 := c3 ++ [Call.nx_azure_iot_hub_client_device_twin_properties_request]
  if env.twin_request_status ≠ 0 then
    ⟨some env.twin_request_status, g, telemetry_state,
     c4 ++ [Call.printf "ERROR: failed to request device twin (0x%08x)\r\n"
       [env.twin_request_status]], []⟩
  else
  let c5 := c4 ++
    [Call.azure_iot_nx_client_publish_bool_property LED_STATE_PROPERTY false,
     Call.printf "\r\nStarting Main loop\r\n" [],
     Call.screen_print "Azure IoT"]
  let (fin, passes) := main_loop env fuel 0 g telemetry_state
  ⟨none, fin.1, fin.2, c5, passes⟩

/-! ## Vocabulary of the properties -/

/-- The `len` bytes found at `p` are exactly the characters of `s`. -/
def names (p : BytePtr) (len : Nat) (s : String) : Prop :=
  len = s.length ∧ ∀ i, i < len → p i = c_str s i

/-- Globals right after program start: interval 10, no flag, LED off. -/
def initial_globals : Globals :=
  { telemetry_interval := 10, azure_iot_flags := 0,
    led_pin := GPIO_PinState.GPIO_PIN_RESET }

/-- Acknowledgments of a writable property among the calls. -/
def acknowledgments (calls : List Call) : List Call :=
  calls.filter fun c =>
    match c with
    | Call.azure_nx_client_respond_int_writeable_property _ _ _ _ => true
    | _ => false

/-- Sensor driver reads among the calls. -/
def sensor_reads (calls : List Call) : List Sensor :=
  calls.filterMap fun c =>
    match c with
    | Call.sensor_data_read sensor => some sensor
    | _ => none

/-- Keys of the telemetry messages among the calls. -/
def published_keys (calls : List Call) : List String :=
  calls.filterMap fun c =>
    match c with
    | Call.azure_iot_nx_client_publish_float_telemetry key _ => some key
    | _ => none

/-- Order of the telemetry keys in the round robin. -/
def telemetry_keys : List String :=
  ["temperature", "pressure", "humidity", "acceleration", "magnetic"]

/-- A concrete environment: every setup call succeeds, 100 ticks per second,
sensor values numbered by pass, no callback activity. -/
def sample_env : Env :=
  { ENABLE_DPS := false
    NX_IP_PERIODIC_RATE := 100
    tx_event_flags_create_status := 0
    client_create_status := 0
    connect_status := 0
    twin_request_status := 0
    lps22hb_data_read := fun k => ⟨⟨1000 + k⟩, ⟨20 + k⟩⟩
    hts221_data_read := fun k => ⟨⟨50 + k⟩⟩
    lsm6dsl_data_read := fun k => ⟨fun i => ⟨k + i⟩⟩
    lis2mdl_data_read := fun k => ⟨fun i => ⟨2 * k + i⟩⟩
    publish_telemetry_status := fun _ => 0
    callbacks_during_wait := fun _ g => g }

/-! ## Facts about `strncmp` -/

theorem strncmp_from_eq_zero (s1 s2 : BytePtr) (n : Nat) :
    ∀ i, (∀ j, j < n → s1 (i + j) = s2 (i + j)) → strncmp_from s1 s2 i n = 0 := by
  induction n with
  | zero => intro i _; rfl
  | succ n ih =>
    intro i h
    have h0 : s1 i = s2 i := by simpa using h 0 (Nat.succ_pos n)
    have hrest : strncmp_from s1 s2 (i + 1) n = 0 := by
      apply ih
      intro j hj
      have := h (j + 1) (Nat.succ_lt_succ hj)
      simpa [Nat.add_assoc, Nat.add_comm 1 j] using this
    simp only [strncmp_from, h0, ne_eq, not_true_eq_false, if_false]
    split
    · rfl
    · exact hrest

theorem strncmp_eq_zero_of_names (p : BytePtr) (len : Nat) (s : String)
    (h : names p len s) : strncmp p (c_str s) len = 0 := by
  unfold strncmp
  apply strncmp_from_eq_zero
  intro j hj
  simpa using h.2 j hj

/-- The response body, an empty JSON object, is two characters long. -/
theorem strlen_empty_object : strlen "\x7b\x7d" = 2 := by decide

/-! ## The command handler -/

/-- C1: invoked with method name `setLedState` and payload `true`, the command
handler drives the LED pin to SET (after logging that the LED is turned on),
publishes the reported property `ledState` with value true and responds with
status 200 and the two-character body of an empty JSON object; nothing else
happens, but for the log line written when sending the response fails. -/
theorem direct_method_cb_setLedState_true (response_status : UINT)
    (method : BytePtr) (method_length : Nat) (payload : BytePtr) (payload_length : Nat)
    (g : Globals)
    (hm : names method method_length "setLedState")
    (hp : names payload payload_length "true") :
    (direct_method_cb response_status method method_length payload payload_length g).1
        = { g with led_pin := GPIO_PinState.GPIO_PIN_SET } ∧
    (direct_method_cb response_status method method_length payload payload_length g).2
        = [Call.printf "LED is turned ON\r\n" [],
           Call.HAL_GPIO_WritePin "GPIOC" 13 GPIO_PinState.GPIO_PIN_SET,
           Call.azure_iot_nx_client_publish_bool_property "ledState" true,
           Call.nx_azure_iot_hub_client_direct_method_message_response 200 "\x7b\x7d" 2]
          ++ (if response_status ≠ 0 then
                [Call.printf "Direct method response failed! (0x%08x)\r\n" [response_status]]
              else []) := by
  have h1 : strncmp method (c_str SET_LED_STATE_COMMAND) method_length = 0 :=
    strncmp_eq_zero_of_names method method_length "setLedState" hm
  have h2 : strncmp payload (c_str "true") payload_length = 0 :=
    strncmp_eq_zero_of_names payload payload_length "true" hp
  by_cases hr : response_status = 0
  · simp [direct_method_cb, h1, h2, hr, set_led_state, LED_STATE_PROPERTY, strlen_empty_object]
  · simp [direct_method_cb, h1, h2, hr, set_led_state, LED_STATE_PROPERTY, strlen_empty_object]

theorem direct_method_cb_setLedState_true_witness :
    names (c_str "setLedState") 11 "setLedState" ∧ names (c_str "true") 4 "true" ∧
    (direct_method_cb 0 (c_str "setLedState") 11 (c_str "true") 4 initial_globals).1
        = { initial_globals with led_pin := GPIO_PinState.GPIO_PIN_SET } ∧
    (direct_method_cb 0 (c_str "setLedState") 11 (c_str "true") 4 initial_globals).2
        = [Call.printf "LED is turned ON\r\n" [],
           Call.HAL_GPIO_WritePin "GPIOC" 13 GPIO_PinState.GPIO_PIN_SET,
           Call.azure_iot_nx_client_publish_bool_property "ledState" true,
           Call.nx_azure_iot_hub_client_direct_method_message_response 200 "\x7b\x7d" 2]
          ++ (if (0 : UINT) ≠ 0 then
                [Call.printf "Direct method response failed! (0x%08x)\r\n" [0]]
              else []) :=
  ⟨⟨rfl, by decide⟩, ⟨rfl, by decide⟩,
   direct_method_cb_setLedState_true 0 (c_str "setLedState") 11 (c_str "true") 4
     initial_globals ⟨rfl, by decide⟩ ⟨rfl, by decide⟩⟩

/-- C2: evaluation of the command handler at a method name that is not
`setLedState`.  The three bytes `set` are accepted as the command: with
payload `true` the LED pin is driven to SET, `ledState` is published as true
and the response carries status 200 instead of 501. -/
theorem direct_method_cb_accepts_shorter_method :
    ¬ names (c_str "set") 3 "setLedState" ∧
    direct_method_cb 0 (c_str "set") 3 (c_str "true") 4 initial_globals
      = ({ initial_globals with led_pin := GPIO_PinState.GPIO_PIN_SET },
         [Call.printf "LED is turned ON\r\n" [],
          Call.HAL_GPIO_WritePin "GPIOC" 13 GPIO_PinState.GPIO_PIN_SET,
          Call.azure_iot_nx_client_publish_bool_property "ledState" true,
          Call.nx_azure_iot_hub_client_direct_method_message_response 200 "\x7b\x7d" 2]) :=
  ⟨fun h => absurd h.1 (by decide), by decide⟩

/-- C3: evaluation of the command handler at method `setLedState` with the
empty payload, a payload other than `true`.  The comparison bounded by the
payload length 0 succeeds, so the LED pin is driven to SET and `ledState` is
published as true, where off and false were expected. -/
theorem direct_method_cb_empty_payload_turns_on :
    ¬ names (c_str "") 0 "true" ∧
    direct_method_cb 0 (c_str "setLedState") 11 (c_str "") 0 initial_globals
      = ({ initial_globals with led_pin := GPIO_PinState.GPIO_PIN_SET },
         [Call.printf "LED is turned ON\r\n" [],
          Call.HAL_GPIO_WritePin "GPIOC" 13 GPIO_PinState.GPIO_PIN_SET,
          Call.azure_iot_nx_client_publish_bool_property "ledState" true,
          Call.nx_azure_iot_hub_client_direct_method_message_response 200 "\x7b\x7d" 2]) :=
  ⟨fun h => absurd h.1 (by decide), by decide⟩

/-! ## The desired-property handler -/

/-- The event flag is among the flags once it has been ORed in. -/
theorem flag_set_after_or (flags : ULONG) :
    (flags ||| TELEMETRY_INTERVAL_EVENT) &&& TELEMETRY_INTERVAL_EVENT
      = TELEMETRY_INTERVAL_EVENT := by
  apply Nat.eq_of_testBit_eq
  intro i
  simp only [Nat.testBit_and, Nat.testBit_or]
  cases (flags.testBit i) <;> cases (TELEMETRY_INTERVAL_EVENT.testBit i) <;> rfl

/-- C4: invoked with property name `telemetryInterval`, a value token that
parses as the integer `N` and version `v`, the desired-property handler stores
`N` in `telemetry_interval`, sets `TELEMETRY_INTERVAL_EVENT` in the flag group
and sends exactly one acknowledgment, for `telemetryInterval` with value `N`,
status 200 and version `v`. -/
theorem device_twin_desired_property_cb_accepts_int
    (property_name : BytePtr) (property_name_len : Nat)
    (reader : NX_AZURE_IOT_JSON_READER) (N : Int) (v : UINT) (g : Globals)
    (hname : names property_name property_name_len "telemetryInterval")
    (hparse : nx_azure_iot_json_reader_token_int32_get reader g.telemetry_interval
                = (NX_AZURE_IOT_SUCCESS, N)) :
    (device_twin_desired_property_cb property_name property_name_len reader v g).1
        = { g with
              telemetry_interval := N
              azure_iot_flags := g.azure_iot_flags ||| TELEMETRY_INTERVAL_EVENT } ∧
    (device_twin_desired_property_cb property_name property_name_len reader v g).1.azure_iot_flags
        &&& TELEMETRY_INTERVAL_EVENT = TELEMETRY_INTERVAL_EVENT ∧
    (device_twin_desired_property_cb property_name property_name_len reader v g).2
        = [Call.tx_event_flags_set TELEMETRY_INTERVAL_EVENT TX_OPTION.TX_OR,
           Call.azure_nx_client_respond_int_writeable_property "telemetryInterval" N 200 v] ∧
    acknowledgments
        (device_twin_desired_property_cb property_name property_name_len reader v g).2
        = [Call.azure_nx_client_respond_int_writeable_property "telemetryInterval" N 200 v] := by
  have h1 : strncmp property_name (c_str "telemetryInterval") property_name_len = 0 :=
    strncmp_eq_zero_of_names property_name property_name_len "telemetryInterval" hname
  have hflag := flag_set_after_or g.azure_iot_flags
  simp [device_twin_desired_property_cb, h1, hparse, tx_event_flags_set,
    TELEMETRY_INTERVAL_PROPERTY, acknowledgments, hflag]

theorem device_twin_desired_property_cb_accepts_int_witness :
    names (c_str "telemetryInterval") 17 "telemetryInterval" ∧
    nx_azure_iot_json_reader_token_int32_get ⟨0, 30⟩ initial_globals.telemetry_interval
      = (NX_AZURE_IOT_SUCCESS, 30) ∧
    (device_twin_desired_property_cb (c_str "telemetryInterval") 17 ⟨0, 30⟩ 7
        initial_globals).1
      = { initial_globals with
            telemetry_interval := 30
            azure_iot_flags := initial_globals.azure_iot_flags ||| TELEMETRY_INTERVAL_EVENT } ∧
    (device_twin_desired_property_cb (c_str "telemetryInterval") 17 ⟨0, 30⟩ 7
        initial_globals).2
      = [Call.tx_event_flags_set TELEMETRY_INTERVAL_EVENT TX_OPTION.TX_OR,
         Call.azure_nx_client_respond_int_writeable_property "telemetryInterval" 30 200 7] :=
  have h := device_twin_desired_property_cb_accepts_int (c_str "telemetryInterval") 17
    ⟨0, 30⟩ 30 7 initial_globals ⟨rfl, by decide⟩ rfl
  ⟨⟨rfl, by decide⟩, rfl, h.1, h.2.2.1⟩

/-- C5: invoked with property name `telemetryInterval` and a value token that
fails to parse as an integer, the desired-property handler leaves
`telemetry_interval` and the flag group as they were and makes no call at all:
no flag is set and no acknowledgment is sent. -/
theorem device_twin_desired_property_cb_parse_failure
    (property_name : BytePtr) (property_name_len : Nat)
    (reader : NX_AZURE_IOT_JSON_READER) (v : UINT) (g : Globals)
    (hname : names property_name property_name_len "telemetryInterval")
    (hfail : reader.status ≠ NX_AZURE_IOT_SUCCESS) :
    device_twin_desired_property_cb property_name property_name_len reader v g = (g, []) := by
  have h1 : strncmp property_name (c_str "telemetryInterval") property_name_len = 0 :=
    strncmp_eq_zero_of_names property_name property_name_len "telemetryInterval" hname
  simp [device_twin_desired_property_cb, h1, nx_azure_iot_json_reader_token_int32_get, hfail]

theorem device_twin_desired_property_cb_parse_failure_witness :
    names (c_str "telemetryInterval") 17 "telemetryInterval" ∧
    (⟨131074, 0⟩ : NX_AZURE_IOT_JSON_READER).status ≠ NX_AZURE_IOT_SUCCESS ∧
    device_twin_desired_property_cb (c_str "telemetryInterval") 17 ⟨131074, 0⟩ 7
      initial_globals = (initial_globals, []) :=
  ⟨⟨rfl, by decide⟩, by decide,
   device_twin_desired_property_cb_parse_failure (c_str "telemetryInterval") 17
     ⟨131074, 0⟩ 7 initial_globals ⟨rfl, by decide⟩ (by decide)⟩

/-- C10: evaluation of the desired-property handler at the property name
`telemetry`, nine bytes, which is not `telemetryInterval`.  The name is
accepted: the value 5 is stored in `telemetry_interval`, the event flag is set
and an acknowledgment is sent, where no effect was expected. -/
theorem device_twin_desired_property_cb_accepts_shorter_name :
    ¬ names (c_str "telemetry") 9 "telemetryInterval" ∧
    device_twin_desired_property_cb (c_str "telemetry") 9 ⟨0, 5⟩ 3 initial_globals
      = ({ initial_globals with telemetry_interval := 5, azure_iot_flags := 1 },
         [Call.tx_event_flags_set 1 TX_OPTION.TX_OR,
          Call.azure_nx_client_respond_int_writeable_property "telemetryInterval" 5 200 3]) :=
  ⟨fun h => absurd h.1 (by decide), by decide⟩

/-! ## The reported-property echo handler -/

/-- C6: whatever the property name, the value token and the version `v`, the
echo handler sends exactly one acknowledgment, as its last call: for
`telemetryInterval`, with status 200, version `v` and the value
`telemetry_interval` holds when the handler is done (the parsed integer if
the name was accepted and the token parsed, the previous value otherwise). -/
theorem device_twin_property_cb_always_acknowledges
    (property_name : BytePtr) (property_name_len : Nat)
    (reader : NX_AZURE_IOT_JSON_READER) (v : UINT) (g : Globals) :
    acknowledgments (device_twin_property_cb property_name property_name_len reader v g).2
      = [Call.azure_nx_client_respond_int_writeable_property "telemetryInterval"
          (device_twin_property_cb property_name property_name_len reader v g).1.telemetry_interval
          200 v] ∧
    (device_twin_property_cb property_name property_name_len reader v g).2.getLast?
      = some (Call.azure_nx_client_respond_int_writeable_property "telemetryInterval"
          (device_twin_property_cb property_name property_name_len reader v g).1.telemetry_interval
          200 v) ∧
    ((device_twin_property_cb property_name property_name_len reader v g).1.telemetry_interval
        = g.telemetry_interval ∨
     (reader.status = NX_AZURE_IOT_SUCCESS ∧
      (device_twin_property_cb property_name property_name_len reader v g).1.telemetry_interval
        = reader.value)) := by
  by_cases h1 : strncmp property_name (c_str "telemetryInterval") property_name_len = 0
  · by_cases h2 : reader.status = NX_AZURE_IOT_SUCCESS
    · simp [device_twin_property_cb, h1, h2, nx_azure_iot_json_reader_token_int32_get,
        tx_event_flags_set, TELEMETRY_INTERVAL_PROPERTY, acknowledgments]
    · simp [device_twin_property_cb, h1, h2, nx_azure_iot_json_reader_token_int32_get,
        TELEMETRY_INTERVAL_PROPERTY, acknowledgments]
  · simp [device_twin_property_cb, h1, TELEMETRY_INTERVAL_PROPERTY, acknowledgments]

/-! ## Setup failures of the entry function -/

/-- C8: when a setup step of the entry function reports a failure status,
whatever the number of loop passes allowed, the function returns that status,
has made the setup calls up to the failing one followed by one log line and
none after it, and has not made a single pass through the loop (so no
telemetry is published).  The four steps are the creation of the event flags,
the creation of the client, the connect and the initial device-twin request. -/
theorem azure_iot_nx_client_entry_setup_failure (env : Env) (g : Globals) (fuel : Nat) :
    (env.tx_event_flags_create_status ≠ 0 →
      azure_iot_nx_client_entry env g fuel
        = ⟨some env.tx_event_flags_create_status, g, 0,
           [Call.tx_event_flags_create "Azure IoT flags",
            Call.printf "FAIL: Unable to create nx_client event flags (0x%04x)\r\n"
              [env.tx_event_flags_create_status]],
           []⟩) ∧
    (env.tx_event_flags_create_status = 0 → env.client_create_status ≠ 0 →
      azure_iot_nx_client_entry env g fuel
        = ⟨some env.client_create_status, { g with azure_iot_flags := 0 }, 0,
           [Call.tx_event_flags_create "Azure IoT flags",
            client_create_call env,
            Call.printf "ERROR: failed to create iot client 0x%04x\r\n"
              [env.client_create_status]],
           []⟩) ∧
    (env.tx_event_flags_create_status = 0 → env.client_create_status = 0 →
      env.connect_status ≠ 0 →
      azure_iot_nx_client_entry env g fuel
        = ⟨some env.connect_status, { g with azure_iot_flags := 0 }, 0,
           [Call.tx_event_flags_create "Azure IoT flags",
            client_create_call env,
            Call.azure_iot_nx_client_register_direct_method Callback.direct_method_cb,
            Call.azure_iot_nx_client_register_device_twin_desired_prop
              Callback.device_twin_desired_property_cb,
            Call.azure_iot_nx_client_register_device_twin_prop
              Callback.device_twin_property_cb,
            Call.azure_iot_nx_client_connect,
            Call.printf "ERROR: failed to connect nx client (0x%08x)\r\n"
              [env.connect_status]],
           []⟩) ∧
    (env.tx_event_flags_create_status = 0 → env.client_create_status = 0 →
      env.connect_status = 0 → env.twin_request_status ≠ 0 →
      azure_iot_nx_client_entry env g fuel
        = ⟨some env.twin_request_status, { g with azure_iot_flags := 0 }, 0,
           [Call.tx_event_flags_create "Azure IoT flags",
            client_create_call env,
            Call.azure_iot_nx_client_register_direct_method Callback.direct_method_cb,
            Call.azure_iot_nx_client_register_device_twin_desired_prop
              Callback.device_twin_desired_property_cb,
            Call.azure_iot_nx_client_register_device_twin_prop
              Callback.device_twin_property_cb,
            Call.azure_iot_nx_client_connect,
            Call.nx_azure_iot_hub_client_device_twin_properties_request,
            Call.printf "ERROR: failed to request device twin (0x%08x)\r\n"
              [env.twin_request_status]],
           []⟩) := by
  refine ⟨?_, ?_, ?_, ?_⟩
  · intro h1
    simp [azure_iot_nx_client_entry, h1]
  · intro h1 h2
    simp [azure_iot_nx_client_entry, h1, h2, NX_SUCCESS]
  · intro h1 h2 h3
    simp [azure_iot_nx_client_entry, h1, h2, h3, NX_SUCCESS]
  · intro h1 h2 h3 h4
    simp [azure_iot_nx_client_entry, h1, h2, h3, h4, NX_SUCCESS]

theorem azure_iot_nx_client_entry_setup_failure_witness :
    (azure_iot_nx_client_entry { sample_env with tx_event_flags_create_status := 13 }
        initial_globals 3).returned = some 13 ∧
    (azure_iot_nx_client_entry { sample_env with client_create_status := 65537 }
        initial_globals 3).returned = some 65537 ∧
    (azure_iot_nx_client_entry { sample_env with connect_status := 131077 }
        initial_globals 3).returned = some 131077 ∧
    (azure_iot_nx_client_entry { sample_env with twin_request_status := 131078 }
        initial_globals 3).loop_calls = [] :=
  ⟨congrArg EntryResult.returned
     ((azure_iot_nx_client_entry_setup_failure
        { sample_env with tx_event_flags_create_status := 13 } initial_globals 3).1
        (by decide)),
   congrArg EntryResult.returned
     ((azure_iot_nx_client_entry_setup_failure
        { sample_env with client_create_status := 65537 } initial_globals 3).2.1
        rfl (by decide)),
   congrArg EntryResult.returned
     ((azure_iot_nx_client_entry_setup_failure
        { sample_env with connect_status := 131077 } initial_globals 3).2.2.1
        rfl rfl (by decide)),
   congrArg EntryResult.loop_calls
     ((azure_iot_nx_client_entry_setup_failure
        { sample_env with twin_request_status := 131078 } initial_globals 3).2.2.2
        rfl rfl rfl (by decide))⟩

/-! ## The telemetry loop -/

/-- The advance of `telemetry_state` keeps it in range and is addition modulo 5. -/
theorem advance_telemetry_state (ts : Int) (h0 : 0 ≤ ts) (h5 : ts < 5) :
    0 ≤ Int.tmod (ts + 1) 5 ∧ Int.tmod (ts + 1) 5 < 5 ∧
    Int.tmod (ts + 1) 5 = (ts + 1) % 5 := by
  have h : Int.tmod (ts + 1) 5 = (ts + 1) % 5 :=
    Int.tmod_eq_emod (by omega) (by decide)
  rw [h]
  omega

/-- After `fuel` passes started in range, `telemetry_state` has moved `fuel`
steps round the five states. -/
theorem main_loop_telemetry_state (env : Env) :
    ∀ (fuel k : Nat) (g : Globals) (ts : Int), 0 ≤ ts → ts < 5 →
      (main_loop env fuel k g ts).1.2 = (ts + (fuel : Int)) % 5 := by
  intro fuel
  induction fuel with
  | zero =>
    intro k g ts h0 h5
    simp only [main_loop]
    omega
  | succ n ih =>
    intro k g ts h0 h5
    obtain ⟨a0, a5, aeq⟩ := advance_telemetry_state ts h0 h5
    have hrec := ih (k + 1) (loop_body env k g ts).1.1 (Int.tmod (ts + 1) 5) a0 a5
    simp only [main_loop, loop_body] at hrec ⊢
    rw [hrec, aeq]
    push_cast
    omega

/-- Pass number `i` of the loop is the loop body run at the state `i` steps
further round the five states. -/
theorem main_loop_pass (env : Env) :
    ∀ (fuel k : Nat) (g : Globals) (ts : Int) (i : Nat), i < fuel → 0 ≤ ts → ts < 5 →
      ∃ g1, (main_loop env fuel k g ts).2[i]?
        = some (loop_body env (k + i) g1 ((ts + (i : Int)) % 5)).2 := by
  intro fuel
  induction fuel with
  | zero => intro k g ts i hi; omega
  | succ n ih =>
    intro k g ts i hi h0 h5
    obtain ⟨a0, a5, aeq⟩ := advance_telemetry_state ts h0 h5
    cases i with
    | zero =>
      refine ⟨g, ?_⟩
      have hts : (ts + ((0 : Nat) : Int)) % 5 = ts := by
        push_cast
        omega
      simp only [main_loop, List.getElem?_cons_zero, Nat.add_zero, hts]
    | succ j =>
      obtain ⟨g1, hg1⟩ := ih (k + 1) (loop_body env k g ts).1.1 (Int.tmod (ts + 1) 5) j
        (by omega) a0 a5
      refine ⟨g1, ?_⟩
      have hidx : k + 1 + j = k + (j + 1) := by omega
      have hts : (Int.tmod (ts + 1) 5 + (j : Int)) % 5 = (ts + ((j + 1 : Nat) : Int)) % 5 := by
        rw [aeq]
        push_cast
        omega
      simp only [main_loop, loop_body, List.getElem?_cons_succ] at hg1 ⊢
      rw [hg1, hidx, hts]

/-- At round-robin state `m`, one pass reads one sensor and publishes one
telemetry message, keyed by the `m`-th telemetry key. -/
theorem loop_body_calls (env : Env) (k : Nat) (g : Globals) (m : Nat) (hm : m < 5) :
    ∃ key, telemetry_keys[m]? = some key ∧
      (sensor_reads (loop_body env k g (m : Int)).2).length = 1 ∧
      published_keys (loop_body env k g (m : Int)).2 = [key] := by
  interval_cases m
  · exact ⟨"temperature", rfl, rfl, rfl⟩
  · exact ⟨"pressure", rfl, rfl, rfl⟩
  · exact ⟨"humidity", rfl, rfl, rfl⟩
  · exact ⟨"acceleration", rfl, rfl, rfl⟩
  · exact ⟨"magnetic", rfl, rfl, rfl⟩

/-- When every setup step succeeds the entry function runs the loop from
`telemetry_state` 0 and pass number 0. -/
theorem azure_iot_nx_client_entry_loop (env : Env) (g : Globals) (fuel : Nat)
    (h1 : env.tx_event_flags_create_status = 0) (h2 : env.client_create_status = 0)
    (h3 : env.connect_status = 0) (h4 : env.twin_request_status = 0) :
    (azure_iot_nx_client_entry env g fuel).telemetry_state
      = (main_loop env fuel 0 { g with azure_iot_flags := 0 } 0).1.2 ∧
    (azure_iot_nx_client_entry env g fuel).loop_calls
      = (main_loop env fuel 0 { g with azure_iot_flags := 0 } 0).2 ∧
    (azure_iot_nx_client_entry env g fuel).returned = none := by
  simp [azure_iot_nx_client_entry, h1, h2, h3, h4, NX_SUCCESS]

/-- C7: once setup has succeeded the loop starts at round-robin state 0 and,
for every `k`, the state at the `k`-th wake is `k mod 5`, lies in `[0,5)` and
becomes `(state + 1) mod 5` after that pass; the `k`-th pass reads exactly one
sensor and publishes exactly one telemetry message, whose key is the
`(k mod 5)`-th of temperature, pressure, humidity, acceleration, magnetic.
Publish outcomes play no part: the loop does not look at them. -/
theorem telemetry_round_robin (env : Env) (g : Globals) (k fuel : Nat)
    (h1 : env.tx_event_flags_create_status = 0) (h2 : env.client_create_status = 0)
    (h3 : env.connect_status = 0) (h4 : env.twin_request_status = 0)
    (hk : k < fuel) :
    (azure_iot_nx_client_entry env g 0).telemetry_state = 0 ∧
    (azure_iot_nx_client_entry env g k).telemetry_state = ((k % 5 : Nat) : Int) ∧
    0 ≤ (azure_iot_nx_client_entry env g k).telemetry_state ∧
    (azure_iot_nx_client_entry env g k).telemetry_state < 5 ∧
    (azure_iot_nx_client_entry env g (k + 1)).telemetry_state
      = ((azure_iot_nx_client_entry env g k).telemetry_state + 1) % 5 ∧
    ∃ calls key,
      (azure_iot_nx_client_entry env g fuel).loop_calls[k]? = some calls ∧
      telemetry_keys[k % 5]? = some key ∧
      (sensor_reads calls).length = 1 ∧
      published_keys calls = [key] := by
  have hst : ∀ n, (azure_iot_nx_client_entry env g n).telemetry_state = ((n : Int)) % 5 := by
    intro n
    rw [(azure_iot_nx_client_entry_loop env g n h1 h2 h3 h4).1,
      main_loop_telemetry_state env n 0 _ 0 (le_refl 0) (by decide)]
    simp
  have hcast : ((k % 5 : Nat) : Int) = (k : Int) % 5 := by push_cast; rfl
  refine ⟨?_, ?_, ?_, ?_, ?_, ?_⟩
  · rw [hst 0]; rfl
  · rw [hst k, hcast]
  · rw [hst k]; omega
  · rw [hst k]; omega
  · rw [hst (k + 1), hst k]
    push_cast
    omega
  · obtain ⟨g1, hg1⟩ := main_loop_pass env fuel 0 { g with azure_iot_flags := 0 } 0 k hk
      (le_refl 0) (by decide)
    obtain ⟨key, hkey, hread, hpub⟩ := loop_body_calls env k g1 (k % 5) (Nat.mod_lt k (by decide))
    have hts : ((0 : Int) + (k : Int)) % 5 = ((k % 5 : Nat) : Int) := by
      rw [hcast]; simp
    refine ⟨(loop_body env k g1 ((k % 5 : Nat) : Int)).2, key, ?_, hkey, hread, hpub⟩
    rw [(azure_iot_nx_client_entry_loop env g fuel h1 h2 h3 h4).2.1, hg1, hts]
    simp

theorem telemetry_round_robin_witness :
    (azure_iot_nx_client_entry sample_env initial_globals 0).telemetry_state = 0 ∧
    (azure_iot_nx_client_entry sample_env initial_globals 7).telemetry_state
      = ((7 % 5 : Nat) : Int) ∧
    0 ≤ (azure_iot_nx_client_entry sample_env initial_globals 7).telemetry_state ∧
    (azure_iot_nx_client_entry sample_env initial_globals 7).telemetry_state < 5 ∧
    (azure_iot_nx_client_entry sample_env initial_globals (7 + 1)).telemetry_state
      = ((azure_iot_nx_client_entry sample_env initial_globals 7).telemetry_state + 1) % 5 ∧
    ∃ calls key,
      (azure_iot_nx_client_entry sample_env initial_globals 9).loop_calls[7]? = some calls ∧
      telemetry_keys[7 % 5]? = some key ∧
      (sensor_reads calls).length = 1 ∧
      published_keys calls = [key] :=
  telemetry_round_robin sample_env initial_globals 7 9 rfl rfl rfl rfl (by decide)

/-! ## The timeout of the wait -/

/-- An accepted desired-property update stores the parsed integer. -/
theorem device_twin_desired_property_cb_stores
    (property_name : BytePtr) (property_name_len : Nat)
    (reader : NX_AZURE_IOT_JSON_READER) (N : Int) (v : UINT) (g : Globals)
    (hname : names property_name property_name_len "telemetryInterval")
    (hparse : nx_azure_iot_json_reader_token_int32_get reader g.telemetry_interval
                = (NX_AZURE_IOT_SUCCESS, N)) :
    (device_twin_desired_property_cb property_name property_name_len reader v
      g).1.telemetry_interval = N := by
  have h1 : strncmp property_name (c_str "telemetryInterval") property_name_len = 0 :=
    strncmp_eq_zero_of_names property_name property_name_len "telemetryInterval" hname
  simp [device_twin_desired_property_cb, h1, hparse, tx_event_flags_set,
    TELEMETRY_INTERVAL_PROPERTY]

/-- C9, as stated, fails: with 100 ticks per second, after a desired-property
update that stores -1 the loop waits 4294967196 ticks, which is not -100; and
after one that stores 2147483647 it waits 4294967196 ticks as well, not
214748364700.  The `ULONG` argument holds the product modulo 2^32. -/
theorem wait_option_not_interval_times_rate :
    ((loop_body sample_env 0
        (device_twin_desired_property_cb (c_str "telemetryInterval") 17 ⟨0, -1⟩ 1
          initial_globals).1 0).2.head?
      = some (Call.tx_event_flags_get 1 TX_OPTION.TX_OR_CLEAR 4294967196) ∧
     ((4294967196 : Nat) : Int) ≠ -1 * (sample_env.NX_IP_PERIODIC_RATE : Int)) ∧
    ((loop_body sample_env 0
        (device_twin_desired_property_cb (c_str "telemetryInterval") 17 ⟨0, 2147483647⟩ 1
          initial_globals).1 0).2.head?
      = some (Call.tx_event_flags_get 1 TX_OPTION.TX_OR_CLEAR 4294967196) ∧
     ((4294967196 : Nat) : Int) ≠ 2147483647 * (sample_env.NX_IP_PERIODIC_RATE : Int)) := by
  decide

/-- C9, amended: for every integer `N` with `0 ≤ N` whose product with
the ticks-per-second rate fits the unsigned 32-bit tick count, once a
desired-property update has stored `N`, every pass of the loop made while
`telemetry_interval` still holds that value passes exactly
`N * NX_IP_PERIODIC_RATE` ticks as the timeout of its wait. -/
theorem wait_option_after_desired_update (env : Env)
    (property_name : BytePtr) (property_name_len : Nat)
    (reader : NX_AZURE_IOT_JSON_READER) (N : Int) (v : UINT) (g g1 : Globals)
    (k : Nat) (telemetry_state : Int)
    (hname : names property_name property_name_len "telemetryInterval")
    (hparse : nx_azure_iot_json_reader_token_int32_get reader g.telemetry_interval
                = (NX_AZURE_IOT_SUCCESS, N))
    (hN0 : 0 ≤ N)
    (hfit : N * (env.NX_IP_PERIODIC_RATE : Int) < 4294967296)
    (hkeep : g1.telemetry_interval
      = (device_twin_desired_property_cb property_name property_name_len reader v
          g).1.telemetry_interval) :
    ∃ ticks : ULONG,
      (loop_body env k g1 telemetry_state).2.head?
        = some (Call.tx_event_flags_get TELEMETRY_INTERVAL_EVENT TX_OPTION.TX_OR_CLEAR ticks) ∧
      (ticks : Int) = N * (env.NX_IP_PERIODIC_RATE : Int) := by
  have hstored := (device_twin_desired_property_cb_stores property_name property_name_len
    reader N v g hname hparse)
  rw [hstored] at hkeep
  refine ⟨wait_option env g1, rfl, ?_⟩
  have hpos : 0 ≤ N * (env.NX_IP_PERIODIC_RATE : Int) :=
    Int.mul_nonneg hN0 (Int.ofNat_nonneg _)
  have hmod : (N * (env.NX_IP_PERIODIC_RATE : Int)) % 4294967296
      = N * (env.NX_IP_PERIODIC_RATE : Int) := Int.emod_eq_of_lt hpos hfit
  simp only [wait_option, to_ULONG, hkeep, hmod]
  exact Int.toNat_of_nonneg hpos

theorem wait_option_after_desired_update_witness :
    ∃ ticks : ULONG,
      (loop_body sample_env 4 { initial_globals with telemetry_interval := 30 } 2).2.head?
        = some (Call.tx_event_flags_get TELEMETRY_INTERVAL_EVENT TX_OPTION.TX_OR_CLEAR ticks) ∧
      (ticks : Int) = 30 * (sample_env.NX_IP_PERIODIC_RATE : Int) :=
  wait_option_after_desired_update sample_env (c_str "telemetryInterval") 17 ⟨0, 30⟩ 30 7
    initial_globals { initial_globals with telemetry_interval := 30 } 4 2
    ⟨rfl, by decide⟩ rfl (by decide) (by decide) (by decide)

end NxClient
